import Mathlib

/-!
Shallow embedding of the dynamic-mode module generated by the `dymod!`
macro (src/src/lib.rs, lines 220-355).  The macro expands, per declared
module, to three `static mut` slots (`VERSION`, `DYLIB`, `MODIFIED_TIME`),
a platform-specific `reload` function, a change detector
`dymod_file_changed`, a handle accessor `dymod_get_lib`, and one
call-through wrapper per declared function.  We model the mutable slots
as an explicit state record, the file system and OS loader as parameters
(an oracle saying which fallible steps succeed, and the watched
artifact's current timestamp/content), timestamps and library contents
as natural numbers, and each reload as the state transition it performs
together with the list of side-effect events it emits, in order.
A `panic` raised by one of the `.expect(..)` calls is modelled as an
`error` field recording which step failed; the state field then holds
the values the `static mut` slots had at the moment of the panic.
-/

/-- The path handed to `Library::new`: either the canonical build
artifact path `DYLIB_PATH`, or the versioned copy `DYLIB_PATH ++ g`. -/
inductive LibPath where
  | canonical
  | versioned (g : Nat)
deriving DecidableEq

/-- A loaded library image: the path it was loaded from and the content
of the file at load time (content stands for the compiled behaviour). -/
structure Library where
  path : LibPath
  content : Nat
deriving DecidableEq

/-- Side effects performed by `reload`, in program order:
dropping the old handle (`DYLIB = None`), `std::fs::remove_file`,
`std::fs::copy`, the macOS `install_name_tool` invocation, and
`Library::new`. -/
inductive Event where
  | unload (lib : Library)
  | removeFile (g : Nat)
  | copyFile (g : Nat) (content : Nat)
  | stripInstallName (g : Nat)
  | load (path : LibPath) (content : Nat)
deriving DecidableEq

/-- Which `.expect(..)` fired during `reload`. -/
inductive ReloadError where
  | removeFailed
  | copyFailed
  | stripFailed
  | loadFailed
deriving DecidableEq

/-- The three `static mut` slots of one declared module:
`VERSION: usize`, `DYLIB: Option<Library>`,
`MODIFIED_TIME: Option<SystemTime>`. -/
structure ModState where
  version : Nat
  dylib : Option Library
  modifiedTime : Option Nat
deriving DecidableEq

/-- State before the first wrapper call: `VERSION = 0`, `DYLIB = None`,
`MODIFIED_TIME = None`. -/
def initState : ModState := { version := 0, dylib := none, modifiedTime := none }

/-- Success/failure of each fallible file-system / loader step inside
one `reload` call. -/
structure FsOracle where
  removeOk : Bool
  copyOk : Bool
  stripOk : Bool
  loadOk : Bool
deriving DecidableEq

/-- Every fallible step succeeds. -/
def allOk : FsOracle := { removeOk := true, copyOk := true, stripOk := true, loadOk := true }

/-- Result of one `reload` (or `dymod_get_lib`) call: the final values
of the `static mut` slots, the side effects emitted in order, and the
panic, if one fired. -/
structure ReloadResult where
  state : ModState
  events : List Event
  error : Option ReloadError
deriving DecidableEq

/-- The `#[cfg(unix)] pub fn reload()` of the macro expansion
(src/src/lib.rs lines 269-307), with `macos` selecting the
`#[cfg(target_os = "macos")]` block: read `delete_old = DYLIB.is_some()`;
set `DYLIB = None`; if `delete_old`, remove `DYLIB_PATH ++ (VERSION-1)`;
copy `DYLIB_PATH` to `DYLIB_PATH ++ VERSION`; on macOS strip the install
name of the copy; then `VERSION += 1` and load the versioned copy.
`art` is the current content of the canonical artifact. -/
def reloadUnix (macos : Bool) (fs : FsOracle) (art : Nat) (s : ModState) : ReloadResult :=
  let deleteOld := s.dylib.isSome
  let ev0 : List Event :=
    match s.dylib with
    | some lib => [Event.unload lib]
    | none => []
  let s0 : ModState := { s with dylib := none }
  if deleteOld && !fs.removeOk then
    { state := s0, events := ev0, error := some ReloadError.removeFailed }
  else
    let ev1 := ev0 ++ (if deleteOld then [Event.removeFile (s.version - 1)] else [])
    if !fs.copyOk then
      { state := s0, events := ev1, error := some ReloadError.copyFailed }
    else
      let ev2 := ev1 ++ [Event.copyFile s.version art]
      if macos && !fs.stripOk then
        { state := s0, events := ev2, error := some ReloadError.stripFailed }
      else
        let ev3 := ev2 ++ (if macos then [Event.stripInstallName s.version] else [])
        let s1 : ModState := { s0 with version := s0.version + 1 }
        if !fs.loadOk then
          { state := s1, events := ev3, error := some ReloadError.loadFailed }
        else
          { state := { s1 with dylib := some { path := LibPath.versioned s.version, content := art } },
            events := ev3 ++ [Event.load (LibPath.versioned s.version) art],
            error := none }

/-- The `#[cfg(not(unix))] pub fn reload()` (src/src/lib.rs lines
309-318): set `DYLIB = None`, then load `DYLIB_PATH` directly. -/
def reloadNonUnix (fs : FsOracle) (art : Nat) (s : ModState) : ReloadResult :=
  let ev0 : List Event :=
    match s.dylib with
    | some lib => [Event.unload lib]
    | none => []
  let s0 : ModState := { s with dylib := none }
  if !fs.loadOk then
    { state := s0, events := ev0, error := some ReloadError.loadFailed }
  else
    { state := { s0 with dylib := some { path := LibPath.canonical, content := art } },
      events := ev0 ++ [Event.load LibPath.canonical art],
      error := none }

/-- The target platform; exactly one `reload` exists per platform. -/
inductive OsKind where
  | macos
  | otherUnix
  | nonUnix
deriving DecidableEq

/-- Dispatch to the platform's `reload`. -/
def reload (p : OsKind) (fs : FsOracle) (art : Nat) (s : ModState) : ReloadResult :=
  match p with
  | OsKind.macos => reloadUnix true fs art s
  | OsKind.otherUnix => reloadUnix false fs art s
  | OsKind.nonUnix => reloadNonUnix fs art s

/-- The watched artifact as seen by one wrapper call: the result of
`fs::metadata(DYLIB_PATH)?.modified()?` (`none` models a failure of
either read), and the artifact's current content. -/
structure Artifact where
  readMTime : Option Nat
  content : Nat
deriving DecidableEq

/-- The inner `fn file_changed() -> Result<bool, std::io::Error>`
(src/src/lib.rs lines 321-329): on a successful read of timestamp `t`,
`changed = MODIFIED_TIME.is_some() && MODIFIED_TIME != Some(t)`, then
`MODIFIED_TIME = Some(t)`.  On a failed read the `?` returns early,
before the store.  Returns the result together with the new value of
`MODIFIED_TIME`. -/
def file_changed (readResult : Option Nat) (mt : Option Nat) : Except Unit Bool × Option Nat :=
  match readResult with
  | none => (Except.error (), mt)
  | some t => (Except.ok (mt.isSome && (mt != some t)), some t)

/-- `fn dymod_file_changed() -> bool` (src/src/lib.rs lines 320-332):
`AUTO_RELOAD && file_changed().unwrap_or(false)`.  When `AUTO_RELOAD` is
false the `&&` short-circuits and `file_changed` never runs, so
`MODIFIED_TIME` is untouched. -/
def dymod_file_changed (autoReload : Bool) (readResult : Option Nat) (mt : Option Nat) :
    Bool × Option Nat :=
  if autoReload then
    match file_changed readResult mt with
    | (Except.ok changed, mt2) => (changed, mt2)
    | (Except.error _, mt2) => (false, mt2)
  else
    (false, mt)

/-- `fn dymod_get_lib() -> &'static Library` (src/src/lib.rs lines
334-341): `if DYLIB.is_none() || dymod_file_changed() { reload(); }`.
The `||` short-circuits: when `DYLIB` is `None`, `dymod_file_changed`
is not called at all. -/
def dymod_get_lib (p : OsKind) (autoReload : Bool) (fs : FsOracle) (art : Artifact)
    (s : ModState) : ReloadResult :=
  if s.dylib.isNone then
    reload p fs art.content s
  else
    let res := dymod_file_changed autoReload art.readMTime s.modifiedTime
    let s2 : ModState := { s with modifiedTime := res.2 }
    if res.1 then
      reload p fs art.content s2
    else
      { state := s2, events := [], error := none }

/-- One call-through wrapper invocation (src/src/lib.rs lines 343-352):
`dymod_get_lib`, then resolve the symbol against the returned handle and
invoke it.  The second component is the content of the library the
symbol is resolved in — the behaviour the caller observes
(`none` when the load panicked and no handle is live). -/
def wrapperCall (p : OsKind) (autoReload : Bool) (fs : FsOracle) (art : Artifact)
    (s : ModState) : ReloadResult × Option Nat :=
  let r := dymod_get_lib p autoReload fs art s
  (r, Option.map Library.content r.state.dylib)

/-- Is this event a `Library::new` call? -/
def Event.isLoad : Event → Bool
  | Event.load _ _ => true
  | _ => false

/-- Is this event a `Library::new` on the canonical `DYLIB_PATH`? -/
def Event.isCanonicalLoad : Event → Bool
  | Event.load LibPath.canonical _ => true
  | _ => false

/-- Is this event a `std::fs::copy`? -/
def Event.isCopy : Event → Bool
  | Event.copyFile _ _ => true
  | _ => false

/-- Is this event a `std::fs::remove_file`? -/
def Event.isRemove : Event → Bool
  | Event.removeFile _ => true
  | _ => false

/-- Net change an event makes to the number of live library handles. -/
def liveDelta : Event → Int
  | Event.unload _ => -1
  | Event.load _ _ => 1
  | _ => 0

/-- `liveBounded init evs` holds when, starting from `init` live
handles, every prefix of `evs` leaves at most one handle live. -/
def liveBounded (init : Int) : List Event → Bool
  | [] => decide (init ≤ 1)
  | e :: rest => decide (init ≤ 1) && liveBounded (init + liveDelta e) rest

/-- Every `load` in the trace is preceded by some `unload`
(`seenUnload` carries whether one has already occurred). -/
def loadsAfterUnload (seenUnload : Bool) : List Event → Bool
  | [] => true
  | Event.load _ _ :: rest => seenUnload && loadsAfterUnload seenUnload rest
  | Event.unload _ :: rest => loadsAfterUnload true rest
  | _ :: rest => loadsAfterUnload seenUnload rest

/-- Every `load` of a versioned path `g` was preceded by a `copy` of the
artifact to generation `g` with the same content, and no `load` ever
uses the canonical path (`copied` accumulates the copies seen so far). -/
def loadsUseCopies (copied : List (Nat × Nat)) : List Event → Bool
  | [] => true
  | Event.copyFile g c :: rest => loadsUseCopies ((g, c) :: copied) rest
  | Event.load (LibPath.versioned g) c :: rest =>
      copied.contains (g, c) && loadsUseCopies copied rest
  | Event.load LibPath.canonical _ :: _ => false
  | _ :: rest => loadsUseCopies copied rest

/-- Every `stripInstallName g` follows a `copy` to generation `g`, and
every `load` of a versioned path `g` follows a `stripInstallName g`:
the macOS ordering copy, then strip, then load. -/
def macosLoadsStripped (copied stripped : List Nat) : List Event → Bool
  | [] => true
  | Event.copyFile g _ :: rest => macosLoadsStripped (g :: copied) stripped rest
  | Event.stripInstallName g :: rest =>
      copied.contains g && macosLoadsStripped copied (g :: stripped) rest
  | Event.load (LibPath.versioned g) _ :: rest =>
      stripped.contains g && macosLoadsStripped copied stripped rest
  | _ :: rest => macosLoadsStripped copied stripped rest

/-- Claim C8 as stated: every `remove_file` of the generation-`g`
versioned copy happens only after a `load` of the generation-`g+1`
image (`seen` accumulates the generations loaded so far). -/
def deleteAfterSuccessorLoad (seen : List Nat) : List Event → Bool
  | [] => true
  | Event.removeFile g :: rest =>
      seen.contains (g + 1) && deleteAfterSuccessorLoad seen rest
  | Event.load (LibPath.versioned g) _ :: rest => deleteAfterSuccessorLoad (g :: seen) rest
  | _ :: rest => deleteAfterSuccessorLoad seen rest

/-- Every `remove_file` of the generation-`g` versioned copy happens
only after the handle mapped from that very file has been dropped
(`dropped` accumulates the paths of handles unloaded so far). -/
def deleteAfterOwnerUnload (dropped : List LibPath) : List Event → Bool
  | [] => true
  | Event.removeFile g :: rest =>
      dropped.contains (LibPath.versioned g) && deleteAfterOwnerUnload dropped rest
  | Event.unload lib :: rest => deleteAfterOwnerUnload (lib.path :: dropped) rest
  | _ :: rest => deleteAfterOwnerUnload dropped rest

theorem dymod_file_changed_off (readResult : Option Nat) (mt : Option Nat) :
    dymod_file_changed false readResult mt = (false, mt) := rfl

theorem dymod_file_changed_read_failure (a : Bool) (mt : Option Nat) :
    dymod_file_changed a none mt = (false, mt) := by
  cases a <;> simp [dymod_file_changed, file_changed]

theorem dymod_file_changed_auto_some (t : Nat) (mt : Option Nat) :
    dymod_file_changed true (some t) mt = (mt.isSome && (mt != some t), some t) := by
  simp [dymod_file_changed, file_changed]

/-- Claim C3: on a successful timestamp read, a `None` baseline is
replaced by the fresh timestamp and no change is reported; a stored
baseline reports a change exactly when the fresh timestamp differs, and
in both cases the stored baseline becomes the freshly read value. -/
theorem C3_change_detector_successful_read :
    (∀ t : Nat, file_changed (some t) none = (Except.ok false, some t)) ∧
    (∀ t t0 : Nat, file_changed (some t) (some t0) = (Except.ok (decide (t0 ≠ t)), some t)) := by
  constructor
  · intro t
    simp [file_changed]
  · intro t t0
    by_cases h : t0 = t <;> simp [file_changed, bne, h]

/-- Claim C2: at every instant at most one library handle is live per
declared module, and every reload transition drops the currently live
handle strictly before the replacement image is loaded, on both the
copy-to-versioned-path (unix) and the in-place (non-unix) code paths. -/
theorem C2_unload_strictly_before_load
    (p : OsKind) (fs : FsOracle) (art : Nat) (s : ModState) (lib : Library)
    (hdyl : s.dylib = some lib) :
    (reload p fs art s).events.head? = some (Event.unload lib) ∧
    loadsAfterUnload false (reload p fs art s).events = true ∧
    liveBounded 1 (reload p fs art s).events = true ∧
    liveBounded 0 (reload p fs art { s with dylib := none }).events = true := by
  rcases fs with ⟨ro, co, so, lo⟩
  cases p <;> cases ro <;> cases co <;> cases so <;> cases lo <;>
    simp [reload, reloadUnix, reloadNonUnix, hdyl, loadsAfterUnload, liveBounded, liveDelta]

/-- Witness for C2 at a concrete state with a live handle. -/
theorem C2_unload_strictly_before_load_witness :
    liveBounded 1 (reload OsKind.macos allOk 7
      { version := 1, dylib := some { path := LibPath.versioned 0, content := 3 },
        modifiedTime := some 5 }).events = true :=
  (C2_unload_strictly_before_load OsKind.macos allOk 7
    { version := 1, dylib := some { path := LibPath.versioned 0, content := 3 },
      modifiedTime := some 5 }
    { path := LibPath.versioned 0, content := 3 } rfl).2.2.1

/-- Claim C4: a failed metadata or modification-time read makes the
change check return `false`, leaves the stored baseline unchanged,
triggers no reload by itself and surfaces no error; a later successful
read still detects a real change against the un-advanced baseline. -/
theorem C4_failed_read_absorbed
    (p : OsKind) (auto : Bool) (fs : FsOracle) (art art2 : Artifact) (s : ModState)
    (lib : Library) (t0 t1 : Nat)
    (hdyl : s.dylib = some lib)
    (hfail : art.readMTime = none)
    (hmt : s.modifiedTime = some t0)
    (hread2 : art2.readMTime = some t1)
    (hne : t0 ≠ t1) :
    dymod_file_changed auto art.readMTime s.modifiedTime = (false, some t0) ∧
    dymod_get_lib p auto fs art s = { state := s, events := [], error := none } ∧
    file_changed art2.readMTime ((dymod_get_lib p auto fs art s).state.modifiedTime) =
      (Except.ok true, some t1) ∧
    (dymod_file_changed true art2.readMTime
      ((dymod_get_lib p auto fs art s).state.modifiedTime)).1 = true := by
  rcases s with ⟨v, d, m⟩
  cases hdyl
  cases hmt
  have h1 : dymod_file_changed auto art.readMTime (some t0) = (false, some t0) := by
    rw [hfail]
    exact dymod_file_changed_read_failure auto (some t0)
  have h2 : dymod_get_lib p auto fs art ⟨v, some lib, some t0⟩ =
      { state := ⟨v, some lib, some t0⟩, events := [], error := none } := by
    simp [dymod_get_lib, h1]
  refine ⟨h1, h2, ?_, ?_⟩
  · simp [h2, hread2, file_changed, bne, hne]
  · simp [h2, hread2, dymod_file_changed_auto_some, bne, hne]

/-- Witness for C4: a failed read at a concrete state changes nothing. -/
theorem C4_failed_read_absorbed_witness :
    dymod_get_lib OsKind.otherUnix true allOk { readMTime := none, content := 9 }
      { version := 1, dylib := some { path := LibPath.versioned 0, content := 4 },
        modifiedTime := some 5 } =
      { state := { version := 1, dylib := some { path := LibPath.versioned 0, content := 4 },
                   modifiedTime := some 5 },
        events := [], error := none } :=
  (C4_failed_read_absorbed OsKind.otherUnix true allOk { readMTime := none, content := 9 }
    { readMTime := some 6, content := 9 }
    { version := 1, dylib := some { path := LibPath.versioned 0, content := 4 },
      modifiedTime := some 5 }
    { path := LibPath.versioned 0, content := 4 } 5 6
    rfl rfl rfl rfl (by decide)).2.1

/-- Claim C1: in dynamic mode with auto-reload set, a wrapper call made
after the watched artifact's timestamp has changed since the last
successful check first performs a reload — dropping the old handle and
then loading the new image — and then resolves the symbol in the newly
loaded library, so the call observes the new library's behaviour
without any explicit reload call. -/
theorem C1_auto_change_triggers_reload
    (p : OsKind) (art : Artifact) (s : ModState) (lib : Library) (t0 t1 : Nat)
    (hdyl : s.dylib = some lib)
    (hmt : s.modifiedTime = some t0)
    (hread : art.readMTime = some t1)
    (hne : t0 ≠ t1) :
    (dymod_get_lib p true allOk art s).error = none ∧
    (dymod_get_lib p true allOk art s).events.head? = some (Event.unload lib) ∧
    (dymod_get_lib p true allOk art s).events.any Event.isLoad = true ∧
    loadsAfterUnload false (dymod_get_lib p true allOk art s).events = true ∧
    Option.map Library.content (dymod_get_lib p true allOk art s).state.dylib =
      some art.content ∧
    (dymod_get_lib p true allOk art s).state.modifiedTime = some t1 ∧
    (wrapperCall p true allOk art s).2 = some art.content := by
  rcases s with ⟨v, d, m⟩
  cases hdyl
  cases hmt
  have hch : dymod_file_changed true art.readMTime (some t0) = (true, some t1) := by
    rw [hread, dymod_file_changed_auto_some]
    simp [bne, hne]
  have hmain : dymod_get_lib p true allOk art ⟨v, some lib, some t0⟩ =
      reload p allOk art.content ⟨v, some lib, some t1⟩ := by
    simp [dymod_get_lib, hch]
  cases p <;>
    simp only [wrapperCall, hmain] <;>
    simp [reload, reloadUnix, reloadNonUnix, allOk, loadsAfterUnload, Event.isLoad]

/-- Witness for C1 at a concrete changed-timestamp state. -/
theorem C1_auto_change_triggers_reload_witness :
    (wrapperCall OsKind.macos true allOk { readMTime := some 8, content := 42 }
      { version := 1, dylib := some { path := LibPath.versioned 0, content := 7 },
        modifiedTime := some 5 }).2 = some 42 :=
  (C1_auto_change_triggers_reload OsKind.macos { readMTime := some 8, content := 42 }
    { version := 1, dylib := some { path := LibPath.versioned 0, content := 7 },
      modifiedTime := some 5 }
    { path := LibPath.versioned 0, content := 7 } 5 8
    rfl rfl rfl (by decide)).2.2.2.2.2.2

/-- Counterexample to claim C5: `reload` never writes `MODIFIED_TIME`,
so the initial load records only the handle.  Concretely: under
auto-reload, a first wrapper call loads artifact content 0 (timestamp
10) but leaves the stored timestamp `none`; the artifact is then
rebuilt (timestamp 11, content 1), yet the very next wrapper call
performs no reload (no events) and still serves the old content 0 —
its change check merely records timestamp 11 as the first baseline. -/
theorem C5_counterexample :
    (dymod_get_lib OsKind.otherUnix true allOk
        { readMTime := some 10, content := 0 } initState).state.modifiedTime = none ∧
    (dymod_get_lib OsKind.otherUnix true allOk
        { readMTime := some 10, content := 0 } initState).state.dylib =
      some { path := LibPath.versioned 0, content := 0 } ∧
    (wrapperCall OsKind.otherUnix true allOk { readMTime := some 11, content := 1 }
        (dymod_get_lib OsKind.otherUnix true allOk
          { readMTime := some 10, content := 0 } initState).state).1.events = [] ∧
    (wrapperCall OsKind.otherUnix true allOk { readMTime := some 11, content := 1 }
        (dymod_get_lib OsKind.otherUnix true allOk
          { readMTime := some 10, content := 0 } initState).state).2 = some 0 ∧
    (wrapperCall OsKind.otherUnix true allOk { readMTime := some 11, content := 1 }
        (dymod_get_lib OsKind.otherUnix true allOk
          { readMTime := some 10, content := 0 } initState).state).1.state.modifiedTime =
      some 11 := by
  decide

/-- Claim C5 as amended: the initial load transition records the new
library handle but not the watched file's modification timestamp; the
baseline timestamp is first recorded by the first change check of a
later wrapper call, which reports no change, so under auto-reload a
modification of the artifact is detected only by a wrapper-call change
check made after some earlier post-load check already recorded the
pre-modification timestamp as baseline. -/
theorem C5_amended_initial_load_records_only_handle
    (p : OsKind) (art1 art2 art3 : Artifact) (t1 t2 : Nat)
    (h2 : art2.readMTime = some t1)
    (h3 : art3.readMTime = some t2)
    (hne : t1 ≠ t2) :
    (dymod_get_lib p true allOk art1 initState).state.modifiedTime = none ∧
    Option.map Library.content
      (dymod_get_lib p true allOk art1 initState).state.dylib = some art1.content ∧
    (dymod_get_lib p true allOk art1 initState).error = none ∧
    (dymod_get_lib p true allOk art2
      (dymod_get_lib p true allOk art1 initState).state).events = [] ∧
    (dymod_get_lib p true allOk art2
      (dymod_get_lib p true allOk art1 initState).state).state.modifiedTime = some t1 ∧
    Option.map Library.content
      (dymod_get_lib p true allOk art2
        (dymod_get_lib p true allOk art1 initState).state).state.dylib = some art1.content ∧
    (dymod_get_lib p true allOk art3
      (dymod_get_lib p true allOk art2
        (dymod_get_lib p true allOk art1 initState).state).state).error = none ∧
    Option.map Library.content
      (dymod_get_lib p true allOk art3
        (dymod_get_lib p true allOk art2
          (dymod_get_lib p true allOk art1 initState).state).state).state.dylib =
      some art3.content := by
  cases p <;>
    simp [dymod_get_lib, reload, reloadUnix, reloadNonUnix, allOk, initState,
      dymod_file_changed_auto_some, h2, h3, bne, hne]

/-- Witness for the amended C5 on a concrete three-call run. -/
theorem C5_amended_initial_load_records_only_handle_witness :
    Option.map Library.content
      (dymod_get_lib OsKind.macos true allOk { readMTime := some 12, content := 3 }
        (dymod_get_lib OsKind.macos true allOk { readMTime := some 10, content := 2 }
          (dymod_get_lib OsKind.macos true allOk { readMTime := some 10, content := 2 }
            initState).state).state).state.dylib = some 3 :=
  (C5_amended_initial_load_records_only_handle OsKind.macos
    { readMTime := some 10, content := 2 } { readMTime := some 10, content := 2 }
    { readMTime := some 12, content := 3 } 10 12
    rfl rfl (by decide)).2.2.2.2.2.2.2

/-- Claim C6: with the auto-reload flag unset no wrapper call triggers a
reload — a call made after the artifact was rebuilt still serves the old
library's behaviour and leaves the state untouched — while the
zero-argument `reload` entry point takes no notice of the flag and
unconditionally performs the reload transition, after which wrapper
calls observe the new library's behaviour. -/
theorem C6_no_auto_reload_manual_entry_point
    (p : OsKind) (fs fs3 : FsOracle) (art art2 : Artifact) (s : ModState) (lib : Library)
    (hdyl : s.dylib = some lib) :
    (wrapperCall p false fs art s).2 = some lib.content ∧
    (wrapperCall p false fs art s).1.events = [] ∧
    (wrapperCall p false fs art s).1.state = s ∧
    (reload p allOk art2.content s).error = none ∧
    Option.map Library.content (reload p allOk art2.content s).state.dylib =
      some art2.content ∧
    (reload p allOk art2.content s).events.head? = some (Event.unload lib) ∧
    (wrapperCall p false fs3 art2 (reload p allOk art2.content s).state).2 =
      some art2.content := by
  rcases s with ⟨v, d, m⟩
  cases hdyl
  refine ⟨?_, ?_, ?_, ?_⟩
  · simp [wrapperCall, dymod_get_lib, dymod_file_changed_off]
  · simp [wrapperCall, dymod_get_lib, dymod_file_changed_off]
  · simp [wrapperCall, dymod_get_lib, dymod_file_changed_off]
  · cases p <;>
      simp [wrapperCall, dymod_get_lib, dymod_file_changed_off, reload,
        reloadUnix, reloadNonUnix, allOk]

/-- Witness for C6: old behaviour without manual reload, new behaviour
after it, at a concrete state. -/
theorem C6_no_auto_reload_manual_entry_point_witness :
    (wrapperCall OsKind.otherUnix false allOk { readMTime := some 9, content := 8 }
      { version := 1, dylib := some { path := LibPath.versioned 0, content := 7 },
        modifiedTime := some 5 }).2 = some 7 :=
  (C6_no_auto_reload_manual_entry_point OsKind.otherUnix allOk allOk
    { readMTime := some 9, content := 8 } { readMTime := some 9, content := 8 }
    { version := 1, dylib := some { path := LibPath.versioned 0, content := 7 },
      modifiedTime := some 5 }
    { path := LibPath.versioned 0, content := 7 } rfl).1

/-- Claim C7: under the copy strategy the generation counter starts at
0; the initial load leaves the generation-0 versioned copy live; every
successful reload replaces the live generation-`g` copy by the
generation-`g+1` copy, advancing `VERSION` by exactly one; under the
in-place strategy the counter is untouched. -/
theorem C7_generation_counter
    (art1 art2 art3 : Nat) (s s2 : ModState) (g : Nat) (lib : Library)
    (macos : Bool) (fs2 : FsOracle)
    (hdyl : s.dylib = some lib)
    (hpath : lib.path = LibPath.versioned g)
    (hver : s.version = g + 1) :
    initState.version = 0 ∧
    (reloadUnix macos allOk art1 initState).state.dylib =
      some { path := LibPath.versioned 0, content := art1 } ∧
    (reloadUnix macos allOk art1 initState).state.version = 1 ∧
    (reloadUnix macos allOk art2 s).error = none ∧
    (reloadUnix macos allOk art2 s).state.dylib =
      some { path := LibPath.versioned (g + 1), content := art2 } ∧
    (reloadUnix macos allOk art2 s).state.version = g + 2 ∧
    (reloadNonUnix fs2 art3 s2).state.version = s2.version := by
  rcases s with ⟨v, d, m⟩
  cases hdyl
  have hv : v = g + 1 := hver
  cases hv
  refine ⟨rfl, ?_, ?_, ?_⟩
  · cases macos <;> simp [reloadUnix, allOk, initState]
  · cases macos <;> simp [reloadUnix, allOk, initState]
  · rcases s2 with ⟨v2, d2, m2⟩
    cases hl : fs2.loadOk <;> cases d2 <;> cases macos <;>
      simp [reloadUnix, reloadNonUnix, allOk, hl]

/-- Witness for C7 from the generation-0 copy to the generation-1 copy. -/
theorem C7_generation_counter_witness :
    (reloadUnix false allOk 9
      { version := 1, dylib := some { path := LibPath.versioned 0, content := 4 },
        modifiedTime := some 3 }).state.dylib =
      some { path := LibPath.versioned 1, content := 9 } :=
  (C7_generation_counter 2 9 5
    { version := 1, dylib := some { path := LibPath.versioned 0, content := 4 },
      modifiedTime := some 3 }
    initState 0 { path := LibPath.versioned 0, content := 4 } false allOk
    rfl rfl rfl).2.2.2.2.1

/-- Counterexample to claim C8: on the copy path the versioned file of
the live generation is deleted by `remove_file` before the next
generation's image is copied or loaded, not after.  With a live
generation-0 handle, the reload trace is unload, remove file 0, copy
file 1, load generation 1 — so there is a point at which file 0 is
already gone while the generation-1 handle does not yet exist
(`deleteAfterSuccessorLoad` is the claim's ordering); moreover with a
failing copy the trace stops after the removal: file 0 is deleted yet
no generation-1 image is ever created or loaded. -/
theorem C8_counterexample :
    (reloadUnix false allOk 1
      { version := 1, dylib := some { path := LibPath.versioned 0, content := 0 },
        modifiedTime := some 10 }).events =
      [Event.unload { path := LibPath.versioned 0, content := 0 }, Event.removeFile 0,
       Event.copyFile 1 1, Event.load (LibPath.versioned 1) 1] ∧
    deleteAfterSuccessorLoad []
      (reloadUnix false allOk 1
        { version := 1, dylib := some { path := LibPath.versioned 0, content := 0 },
          modifiedTime := some 10 }).events = false ∧
    (reloadUnix false { removeOk := true, copyOk := false, stripOk := true, loadOk := true } 1
      { version := 1, dylib := some { path := LibPath.versioned 0, content := 0 },
        modifiedTime := some 10 }).events =
      [Event.unload { path := LibPath.versioned 0, content := 0 }, Event.removeFile 0] ∧
    (reloadUnix false { removeOk := true, copyOk := false, stripOk := true, loadOk := true } 1
      { version := 1, dylib := some { path := LibPath.versioned 0, content := 0 },
        modifiedTime := some 10 }).error = some ReloadError.copyFailed := by
  decide

/-- Claim C8 as amended: the generation-`g` versioned file is deleted
only inside the reload transition that retires generation `g`, strictly
after the handle mapping that file has been dropped — the teardown of
the file never precedes the teardown of the in-memory handle — and
strictly before the generation-`g+1` image is copied and loaded. -/
theorem C8_amended_delete_after_handle_teardown
    (macos : Bool) (art : Nat) (s : ModState) (g : Nat) (lib : Library)
    (hdyl : s.dylib = some lib)
    (hpath : lib.path = LibPath.versioned g)
    (hver : s.version = g + 1) :
    deleteAfterOwnerUnload [] (reloadUnix macos allOk art s).events = true ∧
    (reloadUnix false allOk art s).events =
      [Event.unload lib, Event.removeFile g, Event.copyFile (g + 1) art,
       Event.load (LibPath.versioned (g + 1)) art] ∧
    (reloadUnix true allOk art s).events =
      [Event.unload lib, Event.removeFile g, Event.copyFile (g + 1) art,
       Event.stripInstallName (g + 1), Event.load (LibPath.versioned (g + 1)) art] := by
  rcases s with ⟨v, d, m⟩
  cases hdyl
  have hv : v = g + 1 := hver
  cases hv
  refine ⟨?_, ?_, ?_⟩
  · cases macos <;>
      simp [reloadUnix, allOk, deleteAfterOwnerUnload, hpath]
  · simp [reloadUnix, allOk]
  · simp [reloadUnix, allOk]

/-- Witness for the amended C8 at a concrete generation-0 state. -/
theorem C8_amended_delete_after_handle_teardown_witness :
    deleteAfterOwnerUnload []
      (reloadUnix true allOk 6
        { version := 1, dylib := some { path := LibPath.versioned 0, content := 2 },
          modifiedTime := some 4 }).events = true :=
  (C8_amended_delete_after_handle_teardown true 6
    { version := 1, dylib := some { path := LibPath.versioned 0, content := 2 },
      modifiedTime := some 4 }
    0 { path := LibPath.versioned 0, content := 2 } rfl rfl rfl).1

/-- Claim C9: every failure inside a reload (deleting the old versioned
copy, copying the fresh artifact, stripping its install name, or
loading the new image) propagates as an unrecoverable error; since
`DYLIB` is cleared before any fallible step, a failed reload leaves the
module with no live handle, and the next wrapper call — seeing no
handle — goes straight back into `reload` for a fresh load attempt. -/
theorem C9_reload_failure_is_fatal
    (p : OsKind) (auto : Bool) (fsA fsB : FsOracle) (c : Nat) (art2 : Artifact)
    (s s2 : ModState) (macos : Bool) (lib : Library) (e : ReloadError)
    (hload : fsA.loadOk = false)
    (hdyl : s.dylib = some lib)
    (hnone : s2.dylib = none)
    (herr : (reload p fsB c s).error = some e) :
    (reload p fsA c s).error.isSome = true ∧
    (reload p fsA c s).state.dylib = none ∧
    (reload p fsB c s).state.dylib = none ∧
    dymod_get_lib p auto fsB art2 s2 = reload p fsB art2.content s2 ∧
    (reloadUnix macos { fsA with removeOk := false } c s).error =
      some ReloadError.removeFailed := by
  rcases s with ⟨v, d, m⟩
  cases hdyl
  rcases fsA with ⟨roA, coA, soA, loA⟩
  cases hload
  refine ⟨?_, ?_, ?_, ?_, ?_⟩
  · cases p <;> cases roA <;> cases coA <;> cases soA <;>
      simp [reload, reloadUnix, reloadNonUnix]
  · cases p <;> cases roA <;> cases coA <;> cases soA <;>
      simp [reload, reloadUnix, reloadNonUnix]
  · rcases fsB with ⟨roB, coB, soB, loB⟩
    cases p <;> cases roB <;> cases coB <;> cases soB <;> cases loB <;>
      simp [reload, reloadUnix, reloadNonUnix] at herr ⊢
  · simp [dymod_get_lib, hnone]
  · cases macos <;> simp [reloadUnix]

/-- Witness for C9: a failing load at a concrete state leaves no
handle and an error. -/
theorem C9_reload_failure_is_fatal_witness :
    (reload OsKind.otherUnix
      { removeOk := true, copyOk := true, stripOk := true, loadOk := false } 5
      { version := 1, dylib := some { path := LibPath.versioned 0, content := 3 },
        modifiedTime := some 2 }).state.dylib = none :=
  (C9_reload_failure_is_fatal OsKind.otherUnix true
    { removeOk := true, copyOk := true, stripOk := true, loadOk := false }
    { removeOk := true, copyOk := true, stripOk := true, loadOk := false } 5
    { readMTime := some 1, content := 5 }
    { version := 1, dylib := some { path := LibPath.versioned 0, content := 3 },
      modifiedTime := some 2 }
    initState false { path := LibPath.versioned 0, content := 3 }
    ReloadError.loadFailed rfl rfl rfl (by decide)).2.1

/-- Claim C10: on unix every load — the very first included — goes
through the copy strategy: the artifact is first copied to the path
suffixed with the current generation, the loader only ever receives
such a versioned path (never the canonical one), and on macOS the
copy's install name is stripped after the copy and before the load;
on non-unix platforms every load passes the canonical path directly,
with no copy, no file deletion and no generation counter. -/
theorem C10_copy_strategy_platforms
    (macos : Bool) (fs fs2 : FsOracle) (c c2 : Nat) (s s2 : ModState) :
    loadsUseCopies [] (reloadUnix macos fs c s).events = true ∧
    macosLoadsStripped [] [] (reloadUnix true fs c s).events = true ∧
    ((reloadNonUnix fs2 c2 s2).events.all
      (fun e => !Event.isCopy e && !Event.isRemove e &&
        (!Event.isLoad e || Event.isCanonicalLoad e))) = true ∧
    (reloadNonUnix fs2 c2 s2).state.version = s2.version ∧
    (reloadUnix macos allOk c initState).events.any Event.isCopy = true ∧
    (reloadUnix macos allOk c initState).events.any Event.isLoad = true ∧
    (reloadUnix macos allOk c initState).events.any Event.isCanonicalLoad = false := by
  rcases fs with ⟨ro, co, so, lo⟩
  refine ⟨?_, ?_, ?_, ?_, ?_⟩
  · rcases hd : s.dylib with _ | lib <;> cases macos <;>
      cases ro <;> cases co <;> cases so <;> cases lo <;>
      simp [reloadUnix, hd, loadsUseCopies]
  · rcases hd : s.dylib with _ | lib <;>
      cases ro <;> cases co <;> cases so <;> cases lo <;>
      simp [reloadUnix, hd, macosLoadsStripped]
  · rcases hd2 : s2.dylib with _ | lib2 <;> cases hl : fs2.loadOk <;>
      simp [reloadNonUnix, hd2, hl, Event.isCopy, Event.isRemove, Event.isLoad,
        Event.isCanonicalLoad]
  · rcases hd2 : s2.dylib with _ | lib2 <;> cases hl : fs2.loadOk <;>
      simp [reloadNonUnix, hd2, hl]
  · cases macos <;>
      simp [reloadUnix, allOk, initState, Event.isCopy, Event.isLoad,
        Event.isCanonicalLoad]
